import Mathlib

/-!
Verification development for the querystring-parser objection package.
The filter core is `parseMongoFilter` (MongoDB-style bracket filters) and the
peripheral include validator is `parseInclude`.  Definitions follow the source
in `packages/objection/lib/` line by line; modules of this repository that are
referenced but not shipped (helper modules, enum modules, the error class) are
modelled from the spec, as marked on each definition.
-/

set_option autoImplicit false

namespace QsSpec

/-- A value produced by the querystring tokenizer for one parameter: either a
single string, or an array of strings (comma-splitting is the tokenizer's job,
per the spec's input contract). -/
inductive QsValue where
  | str (s : String)
  | arr (elems : List String)
  deriving DecidableEq, Repr

/-- Splits a character list at every occurrence of the separator; the JS
`String.prototype.split` semantics on single-character separators (keeps empty
segments, yields one segment for the empty string). -/
def splitOnChar (c : Char) : List Char → List (List Char)
  | [] => [[]]
  | x :: xs =>
    let rest := splitOnChar c xs
    if x = c then [] :: rest
    else
      match rest with
      | [] => [[x]]
      | h :: t => (x :: h) :: t

/-- JS `String.prototype.startsWith`. -/
def strStartsWith (s p : String) : Bool :=
  p.toList.isPrefixOf s.toList

/-- The bracket-splitting applied to one parameter key (source lines:
`param.replace(/\[/g, "]").split("]").filter((s) => s.length)`): every `[` is
rewritten to `]`, the key is split on `]`, and empty segments are dropped. -/
def splitParamKey (param : String) : List String :=
  ((splitOnChar ']' (param.toList.map (fun ch => if ch = '[' then ']' else ch))).filter
      (fun l => l ≠ [])).map (fun l => String.mk l)

/-- Modelled from the spec: the `MongoValueType` enum module is not under
`src/`; §3 gives the closed classification vocabulary NUMBER, DATE, NULL,
STRING. -/
inductive MongoValueType where
  | NUMBER
  | DATE
  | NULL
  | STRING
  deriving DecidableEq, Repr

/-- Modelled from the spec: the `SqlOperator` enum module is not under `src/`;
§3 gives the closed target predicate vocabulary (equals, not-equals, the four
orderings, substring-match, in-set, not-in-set, is-null, is-not-null).  The
source additionally references the distinct member `SqlOperator.LIKE` (the
case-sensitive SQL substring operator, as opposed to `ILIKE`), which the
mapping table never produces. -/
inductive SqlOperator where
  | EQUALS
  | NOT_EQUALS
  | GREATER_THAN
  | GREATER_OR_EQUAL
  | LESS_THAN
  | LESS_OR_EQUAL
  | LIKE
  | ILIKE
  | IS_NULL
  | IS_NOT_NULL
  | IN
  | NOT_IN
  deriving DecidableEq, Repr

/-- Modelled from the spec: the `MongoOperator` enum module is not under
`src/`.  The README shows the `$`-prefixed MongoDB operator tokens
(`filter[start_date][$gt]=...`); members mirror the source vocabulary of §3. -/
def MongoOperator.EQUALS : String := "$eq"

def MongoOperator.NOT_EQUALS : String := "$ne"

def MongoOperator.GREATER_THAN : String := "$gt"

def MongoOperator.GREATER_OR_EQUAL : String := "$gte"

def MongoOperator.LESS_THAN : String := "$lt"

def MongoOperator.LESS_OR_EQUAL : String := "$lte"

def MongoOperator.ILIKE : String := "$ilike"

def MongoOperator.IN : String := "$in"

def MongoOperator.NOT_IN : String := "$nin"

/-- The implicit-only null-equality source operator (§3: "is-null [implicit
only]"). -/
def MongoOperator.IS_NULL : String := "$is_null"

/-- Modelled from the spec: the `is-null-string` helper module is not under
`src/`; §4.1 says NULL is "recognized null-sentinel string, case-insensitive". -/
def isNullString (s : String) : Bool :=
  String.mk (s.toList.map Char.toLower) == "null"

/-- Modelled from the spec: the numeric-literal recognition used by the value
classifier (§4.1, "parses as a numeric literal"), restricted to optional-sign
decimal integer literals. -/
def isNumberString (s : String) : Bool :=
  match s.toList with
  | [] => false
  | '-' :: rest => rest ≠ [] && rest.all Char.isDigit
  | l => l.all Char.isDigit

/-- Modelled from the spec: the date-literal shape recognition used by the
value classifier (§4.1, "recognized date-literal shape"), as ISO `yyyy-mm-dd`. -/
def isDateString (s : String) : Bool :=
  match splitOnChar '-' s.toList with
  | [y, m, d] =>
    y.length == 4 && m.length == 2 && d.length == 2 &&
      y.all Char.isDigit && m.all Char.isDigit && d.all Char.isDigit
  | _ => false

/-- Modelled from the spec: per-element classification of one raw string value
(§4.1): NULL sentinel, else numeric literal, else date literal, else STRING. -/
def classifyValue (s : String) : MongoValueType :=
  if isNullString s then .NULL
  else if isNumberString s then .NUMBER
  else if isDateString s then .DATE
  else .STRING

/-- Modelled from the spec: the `are-mongo-types-the-same` helper module is not
under `src/`; §4.1: classify each element and return the single shared type, or
signal a mixed-type conflict (`none`, the falsy return) when any two elements
classify differently. -/
def areMongoTypesTheSame (values : List String) : Option MongoValueType :=
  match values with
  | [] => none
  | v :: rest =>
    let t := classifyValue v
    if rest.all (fun w => classifyValue w == t) then some t else none

/-- A coerced (typed) value: JS `null`, a JS number, or a string. -/
inductive TypedValue where
  | null
  | num (n : Int)
  | str (s : String)
  deriving DecidableEq, Repr

/-- Modelled from the spec: JS `Number(value)` coercion, restricted to the
optional-sign decimal integer literals accepted by the classifier. -/
def jsNumber (s : String) : Int :=
  match s.toList with
  | '-' :: rest => -(Int.ofNat (rest.foldl (fun acc c => acc * 10 + (c.toNat - 48)) 0))
  | l => Int.ofNat (l.foldl (fun acc c => acc * 10 + (c.toNat - 48)) 0)

/-- The per-value coercion of source lines 89-97: null-sentinel strings become
`null`, NUMBER-classified values become numbers, everything else passes
through as a string. -/
def coerceValue (valueType : MongoValueType) (value : String) : TypedValue :=
  if isNullString value then .null
  else if valueType = .NUMBER then .num (jsNumber value)
  else .str value

/-- The operator-defaulting of source lines 99-118: an explicitly supplied
operator is used verbatim; otherwise arrays default to `$in` and scalars
default by value type (NUMBER/DATE to `$eq`, NULL to the implicit null-equality
operator, STRING and the default case to `$ilike`). -/
def determineOperator (providedOperator : Option String)
    (providedValueWasAnArray : Bool) (valueType : MongoValueType) : String :=
  match providedOperator with
  | some op => op
  | none =>
    if providedValueWasAnArray then MongoOperator.IN
    else
      match valueType with
      | .NUMBER => MongoOperator.EQUALS
      | .DATE => MongoOperator.EQUALS
      | .NULL => MongoOperator.IS_NULL
      | .STRING => MongoOperator.ILIKE

/-- The four compatibility checks of source lines 123-174, in source order;
returns the first error message, or `none` when all four pass. -/
def compatError (operator : String) (valueType : MongoValueType)
    (providedValueWasAnArray : Bool) : Option String :=
  if providedValueWasAnArray ∧ ¬(operator = MongoOperator.IN ∨ operator = MongoOperator.NOT_IN) then
    some ("\"" ++ operator ++ "\" operator should not be used with array value")
  else if valueType = .NULL ∧
      (operator = MongoOperator.GREATER_THAN ∨ operator = MongoOperator.GREATER_OR_EQUAL ∨
        operator = MongoOperator.LESS_THAN ∨ operator = MongoOperator.LESS_OR_EQUAL ∨
        operator = MongoOperator.ILIKE) then
    some ("\"" ++ operator ++ "\" operator should not be used with null value")
  else if valueType = .NUMBER ∧ operator = MongoOperator.ILIKE then
    some ("\"" ++ operator ++ "\" operator should not be used with number values")
  else if valueType = .DATE ∧ operator = MongoOperator.ILIKE then
    some ("\"" ++ operator ++ "\" operator should not be used with date values")
  else none

/-- The object-literal lookup of source lines 180-191: the fixed table from a
source operator token to its base target operator; an unknown token looks up
to JS `undefined`, modelled as `none`. -/
def sqlOperatorForMongoOperator (operator : String) : Option SqlOperator :=
  if operator = MongoOperator.EQUALS then some .EQUALS
  else if operator = MongoOperator.IS_NULL then some .EQUALS
  else if operator = MongoOperator.NOT_EQUALS then some .NOT_EQUALS
  else if operator = MongoOperator.GREATER_THAN then some .GREATER_THAN
  else if operator = MongoOperator.GREATER_OR_EQUAL then some .GREATER_OR_EQUAL
  else if operator = MongoOperator.LESS_THAN then some .LESS_THAN
  else if operator = MongoOperator.LESS_OR_EQUAL then some .LESS_OR_EQUAL
  else if operator = MongoOperator.ILIKE then some .ILIKE
  else if operator = MongoOperator.IN then some .IN
  else if operator = MongoOperator.NOT_IN then some .NOT_IN
  else none

/-- The null adjustment of source lines 193-202: after the base mapping, when
the value type is NULL, rewrite `EQUALS` to `IS_NULL` and `NOT_EQUALS` to
`IS_NOT_NULL`; every other operator (including the `undefined` lookup result)
is left unchanged. -/
def adjustForNull (valueType : MongoValueType) (sqlOperator : Option SqlOperator) :
    Option SqlOperator :=
  if (sqlOperator = some .EQUALS ∨ sqlOperator = some .NOT_EQUALS) ∧ valueType = .NULL then
    if sqlOperator = some .EQUALS then some .IS_NULL else some .IS_NOT_NULL
  else sqlOperator

/-- JS template-literal rendering of a coerced value (used only inside the
wildcard wrap). -/
def renderValue : TypedValue → String
  | .null => "null"
  | .num n => toString n
  | .str s => s

/-- The wildcard wrap of source lines 204-207: a value is wrapped as
`%value%` exactly when the final operator is `SqlOperator.LIKE`; every other
operator passes the value through unchanged. -/
def wrapSqlValue (sqlOperator : Option SqlOperator) (val : TypedValue) : TypedValue :=
  if sqlOperator = some SqlOperator.LIKE then .str ("%" ++ renderValue val ++ "%") else val

/-- A leaf predicate in the json-logic shape of source lines 209-222: a unary
node `{op: attributeRef}` or an n-ary node `{op: [attributeRef, ...values]}`;
the operator key is the (possibly `undefined`) lookup result. -/
inductive Predicate where
  | unary (op : Option SqlOperator) (attributeRef : String)
  | nary (op : Option SqlOperator) (attributeRef : String) (values : List TypedValue)
  deriving DecidableEq, Repr

/-- JS template-literal stringification of a possibly-undefined string (JS
renders `undefined` as the string "undefined"). -/
def jsShow : Option String → String
  | some s => s
  | none => "undefined"

/-- Modelled from the spec: the `QuerystringParsingError` class is not under
`src/`; §3 gives its payload `{message, querystring, paramKey, paramValue}`. -/
structure QuerystringParsingError where
  message : String
  querystring : String
  paramKey : String
  paramValue : QsValue
  deriving DecidableEq, Repr

/-- The pre-configured error constructor of source lines 63-72: rebuilds the
bracket-notation `paramKey` (with the operator segment when one was given). -/
def createError (querystring : String) (field providedOperator : Option String)
    (providedValue : QsValue) (message : String) : QuerystringParsingError :=
  { message := message
    querystring := querystring
    paramKey := "filter[" ++ jsShow field ++ "]" ++
      (match providedOperator with
       | none => ""
       | some op => "[" ++ op ++ "]")
    paramValue := providedValue }

/-- JS `Array.isArray(providedValue)`. -/
def qsValueIsArray : QsValue → Bool
  | .str _ => false
  | .arr _ => true

/-- The temporary array wrap of source line 79: single values are wrapped so
the per-field logic treats both shapes alike. -/
def valuesOfQsValue : QsValue → List String
  | .str s => [s]
  | .arr l => l

/-- The final predicate assembly of source lines 209-222: unary operators
(`IS_NULL`/`IS_NOT_NULL`) carry only the attribute reference; every other
operator carries the attribute reference followed by the values. -/
def buildPredicate (field : Option String) (sqlOperator : Option SqlOperator)
    (sqlValues : List TypedValue) : Predicate :=
  let attributeRef := "#" ++ jsShow field
  if sqlOperator = some SqlOperator.IS_NULL ∨ sqlOperator = some SqlOperator.IS_NOT_NULL then
    .unary sqlOperator attributeRef
  else
    .nary sqlOperator attributeRef sqlValues

/-- One iteration of the per-field loop (source lines 50-223): split the key,
classify and coerce the values, resolve the operator, run the four
compatibility checks, map to the target vocabulary, adjust for null, wrap,
and build the leaf predicate; any failing check yields the field's
`QuerystringParsingError`. -/
def processField (querystring param : String) (providedValue : QsValue) :
    Except QuerystringParsingError Predicate :=
  let parts := splitParamKey param
  let field := parts[1]?
  let providedOperator := parts[2]?
  let providedValueWasAnArray := qsValueIsArray providedValue
  let values := valuesOfQsValue providedValue
  match areMongoTypesTheSame values with
  | none =>
    .error (createError querystring field providedOperator providedValue
      "arrays should not mix multiple value types")
  | some valueType =>
    let coerced := values.map (coerceValue valueType)
    let operator := determineOperator providedOperator providedValueWasAnArray valueType
    match compatError operator valueType providedValueWasAnArray with
    | some msg => .error (createError querystring field providedOperator providedValue msg)
    | none =>
      let sqlOperator := adjustForNull valueType (sqlOperatorForMongoOperator operator)
      .ok (buildPredicate field sqlOperator (coerced.map (wrapSqlValue sqlOperator)))

/-- The compound filter tree: leaf predicates combined by the strictly binary
`{AND: [prevs, curnt]}` nodes of source lines 225-228. -/
inductive FilterTree where
  | leaf (p : Predicate)
  | AND (l r : FilterTree)
  deriving DecidableEq, Repr

/-- The `{ results, errors }` return shape of `parseMongoFilter`; `results` is
`none` when the JS variable is still `undefined`. -/
structure ParseResult where
  results : Option FilterTree
  errors : List QuerystringParsingError
  deriving DecidableEq, Repr

/-- A JS runtime exception escaping `parseMongoFilter`: `Array.prototype.reduce`
with no initial value throws a TypeError on an empty array. -/
inductive JsException where
  | reduceOfEmptyArray
  deriving DecidableEq, Repr

/-- The per-field loop of source lines 50-223: each failing field pushes its
one error and short-circuits the whole call with the last-assigned `results`
(still `undefined`); each succeeding field appends its leaf predicate. -/
def runFields (querystring : String) :
    List (String × QsValue) → List Predicate → (List Predicate) ⊕ ParseResult
  | [], acc => .inl acc
  | (param, providedValue) :: rest, acc =>
    match processField querystring param providedValue with
    | .error e => .inr { results := none, errors := [e] }
    | .ok p => runFields querystring rest (acc ++ [p])

/-- The final fold of source lines 225-228: JS `reduce` with no initial value;
`none` models the TypeError thrown on an empty array, a single element is
returned unchanged, and longer lists left-fold into binary `AND` nodes. -/
def combineFieldResults : List Predicate → Option FilterTree
  | [] => none
  | h :: t => some (t.foldl (fun acc p => FilterTree.AND acc (.leaf p)) (.leaf h))

/-- The filter core `parseMongoFilter` (source lines 39-231).  The `qs`
tokenizer is an external collaborator specified only at its interface (spec
§6), so the function takes its output — the pre-split mapping from key strings
to scalar-or-array string values — alongside the raw querystring used in error
payloads.  Keys are selected by `key.startsWith("filter")` (source line 46). -/
def parseMongoFilter (querystring : String) (qsParams : List (String × QsValue)) :
    Except JsException ParseResult :=
  let filterParams := qsParams.filter (fun kv => strStartsWith kv.1 "filter")
  match runFields querystring filterParams [] with
  | .inr early => .ok early
  | .inl fieldResults =>
    match combineFieldResults fieldResults with
    | none => .error .reduceOfEmptyArray
    | some tree => .ok { results := some tree, errors := [] }

/-- Depth of a filter tree (a leaf has depth 0). -/
def treeDepth : FilterTree → Nat
  | .leaf _ => 0
  | .AND l r => max (treeDepth l) (treeDepth r) + 1

/-- Modelled from the spec: the `helpers/validation` module is not under
`src/`; `containsNoErrorFromParser` is the upstream-error passthrough guard
(§6): true when the prior stage produced no errors. -/
def containsNoErrorFromParser (errors : List String) : Bool :=
  errors.isEmpty

/-- Modelled from the spec: the `helpers/validation` module is not under
`src/`; `isAnArray` is the array check on the pre-parsed include value, where
`none` models a non-array value. -/
def isAnArray (value : Option (List String)) : Bool :=
  value.isSome

/-- One chainable operation in the include validator's result list. -/
structure IncludeOperation where
  fx : String
  parameters : List String
  deriving DecidableEq, Repr

/-- The `{ results, errors }` return shape of `parseInclude`. -/
structure ParseIncludeResult where
  results : List IncludeOperation
  errors : List String
  deriving DecidableEq, Repr

/-- The include validator `parseInclude` (source lines 6-27): with no upstream
errors, a non-array input yields one error; a non-empty array yields a single
select operation; an empty array yields no operation and no error; upstream
errors pass through verbatim with no results. -/
def parseInclude (includeValue : Option (List String)) (includeErrors : List String) :
    ParseIncludeResult :=
  if containsNoErrorFromParser includeErrors then
    if ¬ isAnArray includeValue then
      { results := [], errors := ["Include field should be an array"] }
    else
      match includeValue with
      | some l =>
        if l.length > 0 then
          { results := [{ fx := "select", parameters := l }], errors := [] }
        else
          { results := [], errors := [] }
      | none => { results := [], errors := [] }
  else
    { results := [], errors := includeErrors }

/-- Decidable equality for `Except` results, used to evaluate the parser on
concrete inputs. -/
instance {ε α : Type} [DecidableEq ε] [DecidableEq α] : DecidableEq (Except ε α) := fun x y =>
  match x, y with
  | .ok a, .ok b =>
    if h : a = b then isTrue (by rw [h]) else isFalse (by intro hc; injection hc; exact h (by assumption))
  | .error a, .error b =>
    if h : a = b then isTrue (by rw [h]) else isFalse (by intro hc; injection hc; exact h (by assumption))
  | .ok _, .error _ => isFalse (by intro hc; exact Except.noConfusion hc)
  | .error _, .ok _ => isFalse (by intro hc; exact Except.noConfusion hc)

/-- Boolean success test on an `Except` result. -/
def exOk {ε α : Type} : Except ε α → Bool
  | .ok _ => true
  | .error _ => false

theorem exOk_eq_true {ε α : Type} (e : Except ε α) : exOk e = true ↔ ∃ a, e = .ok a := by
  cases e <;> simp [exOk]

/-- The fixed base mapping table only produces the ten listed target operators
(or the `undefined` lookup result); in particular it never produces
`SqlOperator.LIKE`, `SqlOperator.IS_NULL` or `SqlOperator.IS_NOT_NULL`. -/
theorem baseMap_mem (op : String) :
    sqlOperatorForMongoOperator op ∈
      ([none, some .EQUALS, some .NOT_EQUALS, some .GREATER_THAN, some .GREATER_OR_EQUAL,
        some .LESS_THAN, some .LESS_OR_EQUAL, some .ILIKE, some .IN, some .NOT_IN] :
        List (Option SqlOperator)) := by
  unfold sqlOperatorForMongoOperator
  repeat' split
  all_goals decide

theorem adjustForNull_ite (vt : MongoValueType) (o : Option SqlOperator) :
    adjustForNull vt o =
      if vt = .NULL ∧ o = some .EQUALS then some .IS_NULL
      else if vt = .NULL ∧ o = some .NOT_EQUALS then some .IS_NOT_NULL
      else o := by
  unfold adjustForNull
  by_cases h1 : o = some SqlOperator.EQUALS <;>
    by_cases h2 : o = some SqlOperator.NOT_EQUALS <;>
    by_cases h3 : vt = MongoValueType.NULL <;>
    simp_all

theorem runFields_all_ok_append (qs : String) (good rest : List (String × QsValue))
    (acc : List Predicate)
    (hgood : good.all (fun kv => exOk (processField qs kv.1 kv.2)) = true) :
    ∃ acc2 : List Predicate, runFields qs (good ++ rest) acc = runFields qs rest acc2 ∧
      acc2.length = acc.length + good.length := by
  revert hgood
  induction good generalizing acc with
  | nil => exact fun _ => ⟨acc, rfl, by simp⟩
  | cons hd tl ih =>
    obtain ⟨k, v⟩ := hd
    intro hgood
    simp only [List.all_cons, Bool.and_eq_true] at hgood
    obtain ⟨h1, h2⟩ := hgood
    obtain ⟨p, hp⟩ := (exOk_eq_true _).mp h1
    obtain ⟨acc2, hrun, hlen⟩ := ih (acc ++ [p]) h2
    refine ⟨acc2, ?_, ?_⟩
    · rw [List.cons_append]
      simp only [runFields, hp]
      exact hrun
    · simp at hlen
      simp [hlen]
      omega

theorem runFields_inl_length (qs : String) (ps : List (String × QsValue))
    (acc l : List Predicate) (h : runFields qs ps acc = .inl l) :
    l.length = acc.length + ps.length := by
  revert h
  induction ps generalizing acc with
  | nil =>
    intro h
    simp only [runFields] at h
    cases h
    simp
  | cons hd tl ih =>
    obtain ⟨k, v⟩ := hd
    intro h
    simp only [runFields] at h
    cases hp : processField qs k v with
    | error e => rw [hp] at h; cases h
    | ok p =>
      rw [hp] at h
      have := ih (acc ++ [p]) h
      simp at this
      simp [this]
      omega

/-- A failing field short-circuits the whole call: the output carries the one
error and the last-assigned (`undefined`) results. -/
theorem parse_short_circuit (qs : String) (good rest : List (String × QsValue))
    (k : String) (v : QsValue) (e : QuerystringParsingError)
    (hkeys : (good ++ (k, v) :: rest).all (fun kv => strStartsWith kv.1 "filter") = true)
    (hgood : good.all (fun kv => exOk (processField qs kv.1 kv.2)) = true)
    (hbad : processField qs k v = .error e) :
    parseMongoFilter qs (good ++ (k, v) :: rest) = .ok { results := none, errors := [e] } := by
  unfold parseMongoFilter
  have hfilter : (good ++ (k, v) :: rest).filter (fun kv => strStartsWith kv.1 "filter") =
      good ++ (k, v) :: rest := by
    rw [List.filter_eq_self]
    intro x hx
    exact List.all_eq_true.mp hkeys x hx
  rw [hfilter]
  obtain ⟨acc2, hrun, _⟩ := runFields_all_ok_append qs good ((k, v) :: rest) [] hgood
  simp only [hrun, runFields, hbad]

theorem areMongoTypesTheSame_none_of_mixed (values : List String) (a b : String)
    (ha : a ∈ values) (hb : b ∈ values) (hne : classifyValue a ≠ classifyValue b) :
    areMongoTypesTheSame values = none := by
  cases values with
  | nil => rfl
  | cons v rest =>
    unfold areMongoTypesTheSame
    by_cases hall : rest.all (fun w => classifyValue w == classifyValue v) = true
    · exfalso
      have hmem : ∀ x ∈ v :: rest, classifyValue x = classifyValue v := by
        intro x hx
        rcases List.mem_cons.mp hx with h | h
        · rw [h]
        · simpa using List.all_eq_true.mp hall x h
      exact hne ((hmem a ha).trans (hmem b hb).symm)
    · simp only [hall]
      simp [Bool.eq_false_iff.mpr hall]

theorem treeDepth_foldl (l : List Predicate) (t : FilterTree) :
    treeDepth (l.foldl (fun acc p => FilterTree.AND acc (.leaf p)) t) = treeDepth t + l.length := by
  induction l generalizing t with
  | nil => simp
  | cons hd tl ih =>
    rw [List.foldl_cons, ih]
    simp [treeDepth]
    omega

/-- On a successfully processed field, the built predicate is unary exactly
when its operator is `IS_NULL` or `IS_NOT_NULL`; an n-ary predicate (one with
a values array) never carries a unary operator. -/
theorem processField_ok_shape (qs k : String) (v : QsValue) (p : Predicate)
    (hok : processField qs k v = .ok p) :
    (∀ o r vs, p = .nary o r vs →
      o ≠ some SqlOperator.IS_NULL ∧ o ≠ some SqlOperator.IS_NOT_NULL) ∧
    (∀ o r, p = .unary o r →
      o = some SqlOperator.IS_NULL ∨ o = some SqlOperator.IS_NOT_NULL) := by
  simp only [processField] at hok
  split at hok
  · cases hok
  · split at hok
    · cases hok
    · cases hok
      unfold buildPredicate
      split
      · case _ hcond =>
          constructor
          · intro o r vs hp
            cases hp
          · intro o r hp
            cases hp
            exact hcond
      · case _ hcond =>
          constructor
          · intro o r vs hp
            cases hp
            exact ⟨fun h => hcond (Or.inl h), fun h => hcond (Or.inr h)⟩
          · intro o r hp
            cases hp

/-- An operator token outside the source vocabulary fails none of the four
compatibility checks on a scalar value. -/
theorem compatError_of_unknown_operator (op : String) (vt : MongoValueType)
    (hop : sqlOperatorForMongoOperator op = none) : compatError op vt false = none := by
  unfold sqlOperatorForMongoOperator at hop
  repeat' split at hop
  all_goals simp_all [compatError]

/-- C1: the claim says substring-match values are wildcard-wrapped on both
sides; the code is not.  On the scalar string `filter[name]=mike` (no explicit
operator, so the final operator is the substring-match `ILIKE`) the predicate
value is the raw `"mike"`, not `"%mike%"`: the wildcard wrap of source line 206
tests `SqlOperator.LIKE`, but the mapping table only ever produces the members
listed in the second conjunct — never `LIKE` — so the wrap is dead code. -/
theorem C1_substring_values_not_wrapped :
    parseMongoFilter "filter[name]=mike" [("filter[name]", QsValue.str "mike")] =
      .ok { results := some (.leaf (.nary (some .ILIKE) "#name" [.str "mike"])),
            errors := [] } ∧
    ∀ op : String, sqlOperatorForMongoOperator op ∈
      ([none, some .EQUALS, some .NOT_EQUALS, some .GREATER_THAN, some .GREATER_OR_EQUAL,
        some .LESS_THAN, some .LESS_OR_EQUAL, some .ILIKE, some .IN, some .NOT_IN] :
        List (Option SqlOperator)) :=
  ⟨by decide, baseMap_mem⟩

/-- C2 (amended): for every input whose parameter mapping holds at least one
filter-prefixed key, the filter parse returns a results/errors value and never
raises; every failure is reported as a ParsingError in the returned list. -/
theorem C2_parse_total_with_filter_param (qs : String) (qsParams : List (String × QsValue))
    (h : qsParams.filter (fun kv => strStartsWith kv.1 "filter") ≠ []) :
    ∃ out : ParseResult, parseMongoFilter qs qsParams = .ok out := by
  unfold parseMongoFilter
  cases hr : runFields qs (qsParams.filter (fun kv => strStartsWith kv.1 "filter")) [] with
  | inr early => exact ⟨early, by simp [hr]⟩
  | inl l =>
    have hlen := runFields_inl_length qs _ [] l hr
    cases l with
    | nil =>
      exfalso
      apply h
      have hlen2 : (qsParams.filter (fun kv => strStartsWith kv.1 "filter")).length = 0 := by
        simp at hlen
        omega
      exact List.length_eq_zero.mp hlen2
    | cons p t =>
      exact ⟨{ results := some (t.foldl (fun acc q => FilterTree.AND acc (.leaf q)) (.leaf p)),
               errors := [] },
        by simp [hr, combineFieldResults]⟩

/-- C2, counterexample to the claim as stated: on an input containing no
filter-prefixed key at all, the final fold is a JS `reduce` with no initial
value over an empty array, which raises an uncaught TypeError instead of
returning a results/errors value. -/
theorem C2_parse_raises_on_no_filter_keys :
    parseMongoFilter "" [] = .error .reduceOfEmptyArray := by decide

/-- C2, witness for the amended claim at a concrete input. -/
theorem C2_parse_total_witness :
    ∃ out : ParseResult,
      parseMongoFilter "filter[a]=1" [("filter[a]", QsValue.str "1")] = .ok out :=
  C2_parse_total_with_filter_param "filter[a]=1" [("filter[a]", QsValue.str "1")] (by decide)

/-- C3 (amended): parameters are selected by `key.startsWith("filter")`, so
adding or removing any parameter whose key does not start with "filter"
leaves the returned results and errors unchanged. -/
theorem C3_nonfilter_params_ignored (qs k : String) (v : QsValue)
    (l1 l2 : List (String × QsValue)) (h : strStartsWith k "filter" = false) :
    parseMongoFilter qs (l1 ++ (k, v) :: l2) = parseMongoFilter qs (l1 ++ l2) := by
  unfold parseMongoFilter
  simp [List.filter_append, List.filter_cons, h]

/-- C3, counterexample to the claim as stated: the key `filterx[b]` has
top-level segment "filterx", not the filter prefix, yet adding it changes the
result, because selection is by string prefix, not by segment equality. -/
theorem C3_top_level_segment_counterexample :
    splitParamKey "filterx[b]" = ["filterx", "b"] ∧
    strStartsWith "filterx[b]" "filter" = true ∧
    parseMongoFilter "q" [("filter[a]", QsValue.str "1"), ("filterx[b]", QsValue.str "2")] ≠
      parseMongoFilter "q" [("filter[a]", QsValue.str "1")] := by decide

/-- C3, witness for the amended claim at a concrete input. -/
theorem C3_nonfilter_params_ignored_witness :
    parseMongoFilter "q" ([("filter[a]", QsValue.str "1")] ++ ("page[size]", QsValue.str "5") :: []) =
      parseMongoFilter "q" ([("filter[a]", QsValue.str "1")] ++ []) :=
  C3_nonfilter_params_ignored "q" "page[size]" (QsValue.str "5")
    [("filter[a]", QsValue.str "1")] [] (by decide)

/-- C4: when every field before some failing field succeeds and that field
fails a classification or compatibility check with error `e`, the whole call
returns immediately with exactly the one error and the last-assigned
(`undefined`) results; the fields after it (arbitrary `rest`) are never
processed and contribute nothing. -/
theorem C4_first_error_short_circuits (qs : String) (good rest : List (String × QsValue))
    (k : String) (v : QsValue) (e : QuerystringParsingError)
    (hkeys : ((good ++ (k, v) :: rest).all fun kv => strStartsWith kv.1 "filter") = true)
    (hgood : (good.all fun kv => exOk (processField qs kv.1 kv.2)) = true)
    (hbad : processField qs k v = .error e) :
    parseMongoFilter qs (good ++ (k, v) :: rest) = .ok { results := none, errors := [e] } :=
  parse_short_circuit qs good rest k v e hkeys hgood hbad

/-- C4, witness at a concrete three-field input whose second field fails. -/
theorem C4_first_error_short_circuits_witness :
    parseMongoFilter "qs4"
        ([("filter[a]", QsValue.str "1")] ++
          ("filter[b]", QsValue.arr ["1", "x"]) :: [("filter[c]", QsValue.str "zzz")]) =
      .ok { results := none,
            errors := [{ message := "arrays should not mix multiple value types",
                         querystring := "qs4", paramKey := "filter[b]",
                         paramValue := QsValue.arr ["1", "x"] }] } :=
  C4_first_error_short_circuits "qs4" [("filter[a]", QsValue.str "1")]
    [("filter[c]", QsValue.str "zzz")] "filter[b]" (QsValue.arr ["1", "x"])
    { message := "arrays should not mix multiple value types", querystring := "qs4",
      paramKey := "filter[b]", paramValue := QsValue.arr ["1", "x"] }
    (by decide) (by decide) (by decide)

/-- C5: with no explicitly supplied operator, an array value resolves to the
in-set operator regardless of the classified value type, and a scalar value
resolves by type: NUMBER and DATE to equals, NULL to the implicit
null-equality operator, STRING to substring-match. -/
theorem C5_default_operator_resolution (vt : MongoValueType) :
    determineOperator none true vt = MongoOperator.IN ∧
    determineOperator none false .NUMBER = MongoOperator.EQUALS ∧
    determineOperator none false .DATE = MongoOperator.EQUALS ∧
    determineOperator none false .NULL = MongoOperator.IS_NULL ∧
    determineOperator none false .STRING = MongoOperator.ILIKE := by
  cases vt <;> exact ⟨rfl, rfl, rfl, rfl, rfl⟩

/-- C6: the source operator is first mapped by the fixed base table — which
never itself produces a unary target operator — and only afterwards, when the
value type is NULL, a base result of equals is rewritten to is-null and a
base result of not-equals to is-not-null; on every successfully processed
field, a predicate carrying a values array never has a unary operator and a
unary predicate (field reference only, no values) always does. -/
theorem C6_base_map_then_null_adjust (vt : MongoValueType) (op qs k : String)
    (v : QsValue) (p : Predicate) (hok : processField qs k v = .ok p) :
    (adjustForNull vt (sqlOperatorForMongoOperator op) =
      if vt = .NULL ∧ sqlOperatorForMongoOperator op = some .EQUALS then
        some SqlOperator.IS_NULL
      else if vt = .NULL ∧ sqlOperatorForMongoOperator op = some .NOT_EQUALS then
        some SqlOperator.IS_NOT_NULL
      else sqlOperatorForMongoOperator op) ∧
    (sqlOperatorForMongoOperator op ∈
      ([none, some .EQUALS, some .NOT_EQUALS, some .GREATER_THAN, some .GREATER_OR_EQUAL,
        some .LESS_THAN, some .LESS_OR_EQUAL, some .ILIKE, some .IN, some .NOT_IN] :
        List (Option SqlOperator))) ∧
    (∀ o r vs, p = Predicate.nary o r vs →
      o ≠ some SqlOperator.IS_NULL ∧ o ≠ some SqlOperator.IS_NOT_NULL) ∧
    (∀ o r, p = Predicate.unary o r →
      o = some SqlOperator.IS_NULL ∨ o = some SqlOperator.IS_NOT_NULL) :=
  ⟨adjustForNull_ite vt _, baseMap_mem op,
    (processField_ok_shape qs k v p hok).1, (processField_ok_shape qs k v p hok).2⟩

/-- C6, witness: scalar `filter[nn]=null` builds the unary is-null predicate,
and the null adjustment applied after the base mapping of `$eq` yields
is-null. -/
theorem C6_base_map_then_null_adjust_witness :
    adjustForNull MongoValueType.NULL (sqlOperatorForMongoOperator "$eq") =
      if MongoValueType.NULL = MongoValueType.NULL ∧
          sqlOperatorForMongoOperator "$eq" = some SqlOperator.EQUALS then
        some SqlOperator.IS_NULL
      else if MongoValueType.NULL = MongoValueType.NULL ∧
          sqlOperatorForMongoOperator "$eq" = some SqlOperator.NOT_EQUALS then
        some SqlOperator.IS_NOT_NULL
      else sqlOperatorForMongoOperator "$eq" :=
  (C6_base_map_then_null_adjust MongoValueType.NULL "$eq" "q6" "filter[nn]"
    (QsValue.str "null") (Predicate.unary (some SqlOperator.IS_NULL) "#nn") (by decide)).1

/-- C7: when the per-field loop completes with predicates `p :: preds`, the
returned result is the strictly binary left fold of AND nodes (a single
predicate is returned unchanged with no wrapping AND), and that tree's depth
is N-1 for N leaf predicates. -/
theorem C7_and_left_fold (qs : String) (qsParams : List (String × QsValue))
    (p : Predicate) (preds : List Predicate)
    (h : runFields qs (qsParams.filter (fun kv => strStartsWith kv.1 "filter")) [] =
      .inl (p :: preds)) :
    parseMongoFilter qs qsParams =
      .ok { results := some (preds.foldl (fun acc q => FilterTree.AND acc (.leaf q)) (.leaf p)),
            errors := [] } ∧
    treeDepth (preds.foldl (fun acc q => FilterTree.AND acc (.leaf q)) (.leaf p)) =
      preds.length := by
  constructor
  · unfold parseMongoFilter
    simp [h, combineFieldResults]
  · simpa [treeDepth] using treeDepth_foldl preds (.leaf p)

/-- C7, witness at a concrete two-field input: the result is the binary
left-leaning AND of the two leaves, of depth 1. -/
theorem C7_and_left_fold_witness :
    parseMongoFilter "w" [("filter[x]", QsValue.str "3"), ("filter[y]", QsValue.str "4")] =
      .ok { results := some (FilterTree.AND
              (.leaf (.nary (some .EQUALS) "#x" [.num 3]))
              (.leaf (.nary (some .EQUALS) "#y" [.num 4]))),
            errors := [] } ∧
    treeDepth (FilterTree.AND (.leaf (.nary (some .EQUALS) "#x" [.num 3]))
      (.leaf (.nary (some .EQUALS) "#y" [.num 4]))) = 1 :=
  C7_and_left_fold "w" [("filter[x]", QsValue.str "3"), ("filter[y]", QsValue.str "4")]
    (Predicate.nary (some .EQUALS) "#x" [.num 3])
    [Predicate.nary (some .EQUALS) "#y" [.num 4]] (by decide)

/-- C8: a field whose raw value sequence holds two elements of different
classified types (reached after any succeeding fields) makes the parse return
exactly the one mixed-value-types error for that field, with no partial
result: results is undefined and no predicate is built. -/
theorem C8_mixed_value_types_single_error (qs k : String) (v : QsValue) (a b : String)
    (good rest : List (String × QsValue))
    (ha : a ∈ valuesOfQsValue v) (hb : b ∈ valuesOfQsValue v)
    (hne : classifyValue a ≠ classifyValue b)
    (hkeys : ((good ++ (k, v) :: rest).all fun kv => strStartsWith kv.1 "filter") = true)
    (hgood : (good.all fun kv => exOk (processField qs kv.1 kv.2)) = true) :
    parseMongoFilter qs (good ++ (k, v) :: rest) =
      .ok { results := none,
            errors := [createError qs (splitParamKey k)[1]? (splitParamKey k)[2]? v
              "arrays should not mix multiple value types"] } := by
  have hmix := areMongoTypesTheSame_none_of_mixed (valuesOfQsValue v) a b ha hb hne
  have hbad : processField qs k v =
      .error (createError qs (splitParamKey k)[1]? (splitParamKey k)[2]? v
        "arrays should not mix multiple value types") := by
    simp only [processField, hmix]
  exact parse_short_circuit qs good rest k v _ hkeys hgood hbad

/-- C8, witness: the array `filter[m]=7,abc` mixes a numeric and a non-numeric
value and yields exactly the one error. -/
theorem C8_mixed_value_types_single_error_witness :
    parseMongoFilter "qs8" ([] ++ ("filter[m]", QsValue.arr ["7", "abc"]) :: []) =
      .ok { results := none,
            errors := [{ message := "arrays should not mix multiple value types",
                         querystring := "qs8", paramKey := "filter[m]",
                         paramValue := QsValue.arr ["7", "abc"] }] } :=
  C8_mixed_value_types_single_error "qs8" "filter[m]" (QsValue.arr ["7", "abc"]) "7" "abc"
    [] [] (by decide) (by decide) (by decide) (by decide) (by decide)

/-- C9: the include validator, given an empty array and no prior parser
errors, returns empty results and empty errors — no error and no select
operation. -/
theorem C9_empty_include_accepted :
    parseInclude (some []) [] = { results := [], errors := [] } := rfl

/-- C10: a field with an explicit operator token outside the source operator
vocabulary and a scalar value passes all four compatibility checks, reports no
error, and builds a predicate anyway: the table lookup yields the undefined
target operator, and the emitted node is n-ary, keyed by that undefined
lookup result, with the field reference and the coerced value attached. -/
theorem C10_unknown_operator_predicate (qs k field op v : String)
    (hk : splitParamKey k = ["filter", field, op])
    (hpre : strStartsWith k "filter" = true)
    (hop : sqlOperatorForMongoOperator op = none) :
    parseMongoFilter qs [(k, QsValue.str v)] =
      .ok { results := some (.leaf (.nary none ("#" ++ field)
              [coerceValue (classifyValue v) v])),
            errors := [] } := by
  have hcompat := compatError_of_unknown_operator op (classifyValue v) hop
  have hfield : processField qs k (QsValue.str v) =
      .ok (.nary none ("#" ++ field) [coerceValue (classifyValue v) v]) := by
    simp only [processField, hk]
    simp [valuesOfQsValue, qsValueIsArray, areMongoTypesTheSame, determineOperator,
      hcompat, hop, adjustForNull, wrapSqlValue, buildPredicate, jsShow]
  unfold parseMongoFilter
  simp [List.filter_cons, hpre, runFields, hfield, combineFieldResults]

/-- C10, witness: `filter[a][unknown]=foo` builds the n-ary predicate keyed by
the undefined lookup with the field reference and value, and no error. -/
theorem C10_unknown_operator_predicate_witness :
    parseMongoFilter "qq" [("filter[a][unknown]", QsValue.str "foo")] =
      .ok { results := some (.leaf (.nary none "#a" [.str "foo"])), errors := [] } :=
  C10_unknown_operator_predicate "qq" "filter[a][unknown]" "a" "unknown" "foo"
    (by decide) (by decide) (by decide)

end QsSpec
